import Mathlib

/-!
Verification of the HubSpot MCP server's request/response adaptation layer
(shinzo-labs/hubspot-mcp).  The JavaScript/TypeScript functions
`formatResponse`, `makeApiRequest`, `makeApiRequestWithErrorHandling`,
`handleEndpoint`, `getConfig` and representative tool handlers from
`src/index.ts` are embedded shallowly: JavaScript values become the
inductive `JSValue`, thrown exceptions become `Except JsError`, and the
single outbound `fetch` becomes an explicit request trace paired with a
mocked `HttpResponse`.
-/

namespace HubspotMcp

/-- A JavaScript runtime value, restricted to the JSON-like shapes that flow
through this adapter (strings, numbers, booleans, null, undefined, plain
objects, arrays).  Numbers are modelled as integers; no claim depends on
float formatting. -/
inductive JSValue where
  | vStr (s : String)
  | vNum (n : Int)
  | vBool (b : Bool)
  | vNull
  | vUndefined
  | vObj (fields : List (String × JSValue))
  | vArr (elems : List JSValue)
deriving Repr

/-- `value === undefined` as a boolean test (nested inductives do not get a
derived decidable equality, and this is the only comparison the adapter
performs on whole values). -/
def isUndef : JSValue → Bool
  | .vUndefined => true
  | _ => false

/-- A thrown JavaScript `Error`: only its `message` is observed by this
code base (`error.message`). -/
structure JsError where
  message : String
deriving Repr, DecidableEq

/-- `typeof` on the modelled values (`typeof null` is `"object"`). -/
def jsTypeof : JSValue → String
  | .vStr _ => "string"
  | .vNum _ => "number"
  | .vBool _ => "boolean"
  | .vNull => "object"
  | .vUndefined => "undefined"
  | .vObj _ => "object"
  | .vArr _ => "object"

/-- JSON string escaping used by `JSON.stringify` (the characters this
repository's payloads can contain). -/
def escapeJsonChar (c : Char) : String :=
  if c = '\\' then "\\\\"
  else if c = '"' then "\\\""
  else if c = '\n' then "\\n"
  else if c = '\t' then "\\t"
  else if c = '\r' then "\\r"
  else String.singleton c

def escapeJson (s : String) : String :=
  String.join (s.toList.map escapeJsonChar)

def jsonQuote (s : String) : String :=
  "\"" ++ escapeJson s ++ "\""

mutual

/-- `JSON.stringify` on the modelled values.  Object members whose value is
`undefined` are dropped; an `undefined` array element serializes as
`null` (as in JavaScript). -/
def stringify : JSValue → String
  | .vStr s => jsonQuote s
  | .vNum n => toString n
  | .vBool b => if b then "true" else "false"
  | .vNull => "null"
  | .vUndefined => "null"
  | .vObj fields => "\x7b" ++ String.intercalate "," (stringifyMembers fields) ++ "\x7d"
  | .vArr elems => "[" ++ String.intercalate "," (stringifyElems elems) ++ "]"

def stringifyMembers : List (String × JSValue) → List String
  | [] => []
  | (k, v) :: rest =>
    match v with
    | .vUndefined => stringifyMembers rest
    | v => (jsonQuote k ++ ":" ++ stringify v) :: stringifyMembers rest

def stringifyElems : List JSValue → List String
  | [] => []
  | v :: rest => stringify v :: stringifyElems rest

end

mutual

/-- JavaScript `String(x)` conversion. -/
def jsStringConv : JSValue → String
  | .vStr s => s
  | .vNum n => toString n
  | .vBool b => if b then "true" else "false"
  | .vNull => "null"
  | .vUndefined => "undefined"
  | .vObj _ => "[object Object]"
  | .vArr elems => String.intercalate "," (arrayJoinElems elems)

/-- `Array.prototype.join(",")` renders `null`/`undefined` elements as the
empty string and every other element via `String(x)`. -/
def arrayJoinElems : List JSValue → List String
  | [] => []
  | .vNull :: rest => "" :: arrayJoinElems rest
  | .vUndefined :: rest => "" :: arrayJoinElems rest
  | v :: rest => jsStringConv v :: arrayJoinElems rest

end

/-- Message of the `TypeError` thrown by `null.toString()` in V8. -/
def nullToStringMessage : String :=
  "Cannot read properties of null (reading 'toString')"

/-- Message of the `TypeError` thrown by `undefined.toString()` in V8. -/
def undefinedToStringMessage : String :=
  "Cannot read properties of undefined (reading 'toString')"

/-- `value.toString()`: fails (throws a `TypeError`) on `null` and
`undefined`, succeeds with the `String(x)` conversion otherwise. -/
def jsToString : JSValue → Except JsError String
  | .vNull => .error ⟨nullToStringMessage⟩
  | .vUndefined => .error ⟨undefinedToStringMessage⟩
  | v => .ok (jsStringConv v)

/-- One item of the protocol response envelope: `\x7btype, text\x7d`. -/
structure ContentItem where
  type : String
  text : String
deriving Repr, DecidableEq

/-- The protocol response envelope `\x7bcontent: [...]\x7d` returned by every
tool handler. -/
structure Envelope where
  content : List ContentItem
deriving Repr, DecidableEq

/-- `formatResponse` from `src/index.ts` (lines 9–23): the `typeof` chain is
mirrored branch for branch — a string is used verbatim, `null`/`undefined`
yield the sentinel, the remaining `typeof data === 'object'` cases (plain
objects and arrays) are JSON-serialized, anything else goes through
`String(data)`. -/
def formatResponse (data : JSValue) : Envelope :=
  let text :=
    match data with
    | .vStr s => s
    | .vNull => "No data returned"
    | .vUndefined => "No data returned"
    | .vObj f => stringify (.vObj f)
    | .vArr e => stringify (.vArr e)
    | other => jsStringConv other
  ⟨[⟨"text", text⟩]⟩

/-! ### The HTTP request adapter (`makeApiRequest`) -/

/-- Hexadecimal digit for percent-encoding. -/
def hexDigit (n : Nat) : Char :=
  if n < 10 then Char.ofNat (48 + n) else Char.ofNat (55 + n)

/-- `application/x-www-form-urlencoded` serialization of one byte. -/
def percentEncodeByte (b : UInt8) : String :=
  String.mk ['%', hexDigit (b.toNat / 16), hexDigit (b.toNat % 16)]

/-- Characters `URLSearchParams` leaves unescaped: ASCII alphanumerics and
`*`, `-`, `.`, `_`. -/
def isFormUnreserved (c : Char) : Bool :=
  (('a' ≤ c && c ≤ 'z') || ('A' ≤ c && c ≤ 'Z') || ('0' ≤ c && c ≤ '9')
    || c = '*' || c = '-' || c = '.' || c = '_')

/-- `URLSearchParams` value/key encoding: space becomes `+`, unreserved
characters pass through, everything else is percent-encoded bytewise. -/
def formEncode (s : String) : String :=
  String.join (s.toList.map fun c =>
    if c = ' ' then "+"
    else if isFormUnreserved c then String.singleton c
    else String.join (((String.singleton c).toUTF8.toList).map percentEncodeByte))

/-- `URLSearchParams.toString()` on an ordered list of appended pairs:
`k=v` entries joined by `&`, both sides form-encoded. -/
def renderQuery : List (String × String) → String
  | [] => ""
  | [(k, v)] => formEncode k ++ "=" ++ formEncode v
  | (k, v) :: rest => formEncode k ++ "=" ++ formEncode v ++ "&" ++ renderQuery rest

/-- The `Object.entries(params).forEach` loop of `makeApiRequest`
(lines 30–33): appends `(key, value.toString())` for every entry whose value
is not `undefined`, in order; `value.toString()` throws on `null`. -/
def buildQueryPairs : List (String × JSValue) → Except JsError (List (String × String))
  | [] => .ok []
  | (k, v) :: rest =>
    if isUndef v then buildQueryPairs rest
    else
      match jsToString v with
      | .error e => .error e
      | .ok s =>
        match buildQueryPairs rest with
        | .error e => .error e
        | .ok tail => .ok ((k, s) :: tail)

/-- One outbound HTTP request as handed to `fetch`. -/
structure HttpRequest where
  url : String
  method : String
  headers : List (String × String)
  body : Option String
deriving Repr, DecidableEq

/-- A mocked upstream HTTP response: its status code and (when the adapter
reads it) its already-parsed JSON body. -/
structure HttpResponse where
  status : Nat
  body : JSValue

/-- `Response.ok`: status in the inclusive range 200–299. -/
def respOk (r : HttpResponse) : Bool :=
  200 ≤ r.status && r.status ≤ 299

/-- The fixed upstream base origin. -/
def hubspotBase : String := "https://api.hubapi.com"

/-- The configuration error thrown for a falsy access token (line 27). -/
def tokenErrorMessage : String :=
  "HUBSPOT_ACCESS_TOKEN environment variable is not set"

/-- A JavaScript string-or-undefined value is falsy when it is `undefined`
or the empty string (`!apiKey`). -/
def isFalsyStr : Option String → Bool
  | none => true
  | some s => s = ""

/-- Template-literal interpolation of a string-or-undefined value. -/
def strOrUndefined : Option String → String
  | none => "undefined"
  | some s => s

/-- `makeApiRequest` from `src/index.ts` (lines 25–55), with the single
`fetch` made explicit: the function returns the JavaScript result (or the
thrown error) together with the trace of outbound requests actually issued
(empty when it throws before `fetch`, a single request otherwise).  The
mocked `resp` stands for what `fetch` resolves to. -/
def makeApiRequest (apiKey : Option String) (endpoint : String)
    (params : List (String × JSValue) := []) (method : String := "GET")
    (body : Option JSValue := none) (resp : HttpResponse) :
    Except JsError JSValue × List HttpRequest :=
  if isFalsyStr apiKey then
    (.error ⟨tokenErrorMessage⟩, [])
  else
    match buildQueryPairs params with
    | .error e => (.error e, [])
    | .ok pairs =>
      let qs := renderQuery pairs
      let url := hubspotBase ++ endpoint ++ (if qs = "" then "" else "?" ++ qs)
      let headers :=
        [("Accept", "application/json"),
         ("Authorization", "Bearer " ++ strOrUndefined apiKey)]
        ++ (if body.isSome then [("Content-Type", "application/json")] else [])
      let req : HttpRequest := ⟨url, method, headers, body.map stringify⟩
      let result : JSValue :=
        if !respOk resp then
          .vStr ("Error fetching data from HubSpot: Status " ++ toString resp.status)
        else if resp.status = 204 then
          .vStr ("No data returned: Status " ++ toString resp.status)
        else
          resp.body
      (.ok result, [req])

/-- `makeApiRequestWithErrorHandling` (lines 57–64): formats the adapter's
result, catching a thrown error into the
`"Error performing request: ..."` envelope. -/
def makeApiRequestWithErrorHandling (apiKey : Option String) (endpoint : String)
    (params : List (String × JSValue) := []) (method : String := "GET")
    (body : Option JSValue := none) (resp : HttpResponse) :
    Envelope × List HttpRequest :=
  match makeApiRequest apiKey endpoint params method body resp with
  | (.ok data, trace) => (formatResponse data, trace)
  | (.error e, trace) =>
    (formatResponse (.vStr ("Error performing request: " ++ e.message)), trace)

/-- `handleEndpoint` (lines 66–72): a handler body either resolves to an
envelope or rejects with an error; the wrapper passes a normal result
through unchanged and formats a thrown error's message. -/
def handleEndpoint : Except JsError Envelope → Envelope
  | .ok v => v
  | .error e => formatResponse (.vStr e.message)

/-! ### Configuration resolution and server construction -/

/-- The optional explicit config object accepted by `createServer`
(only the key this adapter reads). -/
structure ConfigObj where
  HUBSPOT_ACCESS_TOKEN : Option String

/-- The process environment, restricted to the variable `getConfig` reads. -/
structure Env where
  HUBSPOT_ACCESS_TOKEN : Option String

/-- JavaScript `a || b` on string-or-undefined values: `b` when `a` is
falsy (`undefined` or `""`). -/
def jsOr (a b : Option String) : Option String :=
  if isFalsyStr a then b else a

/-- `getConfig` (lines 74–78): `config?.HUBSPOT_ACCESS_TOKEN ||
process.env.HUBSPOT_ACCESS_TOKEN`. -/
def getConfig (config : Option ConfigObj) (env : Env) : Option String :=
  jsOr (config.bind (·.HUBSPOT_ACCESS_TOKEN)) env.HUBSPOT_ACCESS_TOKEN

/-- The registry state a `createServer` call closes over: the token is
resolved once, at construction. -/
structure Registry where
  hubspotAccessToken : Option String

/-- `createServer` (lines 80–87): calls `getConfig` once and the tool
handlers close over the resulting `hubspotAccessToken`. -/
def createServer (config : Option ConfigObj) (env : Env) : Registry :=
  ⟨getConfig config env⟩

/-! ### Representative tool handlers

Each handler closes over `hubspotAccessToken` and runs
`handleEndpoint(async () => makeApiRequestWithErrorHandling(...))`; the
inner body itself cannot throw (the wrapper inside already catches), so
`handleEndpoint` receives a resolved envelope. -/

/-- `crm_batch_update_companies` (src/index.ts lines 223–239): POST to the
fixed batch/update path with body `\x7binputs: params.inputs\x7d`. -/
def crm_batch_update_companies (hubspotAccessToken : Option String)
    (inputs : List JSValue) (resp : HttpResponse) : Envelope × List HttpRequest :=
  let (env, trace) := makeApiRequestWithErrorHandling hubspotAccessToken
    "/crm/v3/objects/companies/batch/update" [] "POST"
    (some (.vObj [("inputs", .vArr inputs)])) resp
  (handleEndpoint (.ok env), trace)

/-- `products_batch_create` (part_006 lines 2682–2691): POST to the fixed
batch/create path with body `\x7binputs: params.inputs\x7d`. -/
def products_batch_create (hubspotAccessToken : Option String)
    (inputs : List JSValue) (resp : HttpResponse) : Envelope × List HttpRequest :=
  let (env, trace) := makeApiRequestWithErrorHandling hubspotAccessToken
    "/crm/v3/objects/products/batch/create" [] "POST"
    (some (.vObj [("inputs", .vArr inputs)])) resp
  (handleEndpoint (.ok env), trace)

/-- `products_batch_archive` (part_006 lines 2671–2680): POST with body
`\x7binputs: productIds.map(id => (\x7bid\x7d))\x7d`. -/
def products_batch_archive (hubspotAccessToken : Option String)
    (productIds : List String) (resp : HttpResponse) : Envelope × List HttpRequest :=
  let (env, trace) := makeApiRequestWithErrorHandling hubspotAccessToken
    "/crm/v3/objects/products/batch/archive" [] "POST"
    (some (.vObj [("inputs", .vArr (productIds.map fun id => .vObj [("id", .vStr id)]))])) resp
  (handleEndpoint (.ok env), trace)

/-- `products_batch_read` (part_006 lines 2693–2705): the schema validates
`propertiesWithHistory`, `idProperty` and `properties`, but the handler body
only uses `productIds`. -/
def products_batch_read (hubspotAccessToken : Option String)
    (propertiesWithHistory : List String) (idProperty : Option String)
    (productIds : List String) (properties : List String)
    (resp : HttpResponse) : Envelope × List HttpRequest :=
  let (env, trace) := makeApiRequestWithErrorHandling hubspotAccessToken
    "/crm/v3/objects/products/batch/read" [] "POST"
    (some (.vObj [("inputs", .vArr (productIds.map fun id => .vObj [("id", .vStr id)]))])) resp
  (handleEndpoint (.ok env), trace)

/-- Invoking a registered tool on a constructed registry: the handler uses
the token captured at construction; the environment as it stands at call
time (`_envNow`) is never consulted. -/
def registryBatchUpdateCompanies (r : Registry) (_envNow : Env)
    (inputs : List JSValue) (resp : HttpResponse) : Envelope × List HttpRequest :=
  crm_batch_update_companies r.hubspotAccessToken inputs resp

/-- The headers `makeApiRequest` sends on a request that carries a body. -/
def postHeaders (apiKey : Option String) : List (String × String) :=
  [("Accept", "application/json"),
   ("Authorization", "Bearer " ++ strOrUndefined apiKey),
   ("Content-Type", "application/json")]

/-! ### Helper lemmas -/

/-- The `forEach` append loop computes exactly the monadic map of
`value.toString()` over the entries whose value is not `undefined`. -/
theorem buildQueryPairs_eq_mapM (params : List (String × JSValue)) :
    buildQueryPairs params =
      List.mapM' (fun p => Except.map (fun s => (p.1, s)) (jsToString p.2))
        (params.filter fun p => !isUndef p.2) := by
  induction params with
  | nil => rfl
  | cons p rest ih =>
    obtain ⟨k, v⟩ := p
    by_cases hv : isUndef v
    · simpa [buildQueryPairs, hv, List.filter_cons] using ih
    · have hfil : List.filter (fun p => !isUndef p.2) ((k, v) :: rest)
          = (k, v) :: List.filter (fun p => !isUndef p.2) rest := by
        simp [List.filter_cons, hv]
      rw [hfil]
      simp only [buildQueryPairs, if_neg hv, List.mapM']
      cases hjs : jsToString v with
      | error e => rfl
      | ok s =>
        rw [ih]
        cases hm : List.mapM' (fun p => Except.map (fun s => (p.1, s)) (jsToString p.2))
            (List.filter (fun p => !isUndef p.2) rest) with
        | error e => rfl
        | ok tail => rfl

/-- `URLSearchParams.toString()` is empty exactly when nothing was
appended (every appended entry contributes at least its `=`). -/
theorem renderQuery_eq_empty_iff (l : List (String × String)) :
    renderQuery l = "" ↔ l = [] := by
  cases l with
  | nil => simp [renderQuery]
  | cons p rest =>
    obtain ⟨k, v⟩ := p
    cases rest with
    | nil =>
      simp only [renderQuery]
      constructor
      · intro h
        have hl := congrArg String.length h
        simp only [String.length_append] at hl
        have h1 : ("=" : String).length = 1 := rfl
        have h0 : ("" : String).length = 0 := rfl
        omega
      · intro h; cases h
    | cons q rest' =>
      simp only [renderQuery]
      constructor
      · intro h
        have hl := congrArg String.length h
        simp only [String.length_append] at hl
        have h1 : ("=" : String).length = 1 := rfl
        have h0 : ("" : String).length = 0 := rfl
        omega
      · intro h; cases h

/-- A successful monadic map yields an empty list exactly on empty input. -/
theorem mapM'_ok_nil_iff {α β : Type} (f : α → Except JsError β) (l : List α)
    (out : List β) (h : List.mapM' f l = .ok out) : out = [] ↔ l = [] := by
  cases l with
  | nil =>
    have h' : Except.ok ([] : List β) = Except.ok out := h
    injection h' with h''
    simp [← h'']
  | cons a l' =>
    simp only [List.mapM'] at h
    cases hf : f a with
    | error e => rw [hf] at h; cases h
    | ok b =>
      rw [hf] at h
      cases hrest : List.mapM' f l' with
      | error e => rw [hrest] at h; cases h
      | ok bs =>
        rw [hrest] at h
        have h' : Except.ok (b :: bs) = Except.ok out := h
        injection h' with h''
        constructor
        · intro hout; rw [← h''] at hout; cases hout
        · intro hl; cases hl

/-- Any `null` among the query-parameter values makes the append loop throw
the `TypeError` of `null.toString()` (undefined values are filtered before
`toString` is reached, so `null` is the only value that can throw here). -/
theorem buildQueryPairs_of_mem_null (params : List (String × JSValue))
    (h : ∃ k, (k, JSValue.vNull) ∈ params) :
    buildQueryPairs params = .error ⟨nullToStringMessage⟩ := by
  induction params with
  | nil => obtain ⟨k, hk⟩ := h; cases hk
  | cons p rest ih =>
    obtain ⟨k, hk⟩ := h
    obtain ⟨kp, vp⟩ := p
    cases vp with
    | vNull => rfl
    | vUndefined =>
      have hr : (k, JSValue.vNull) ∈ rest := by
        rcases List.mem_cons.mp hk with heq | hmem
        · cases heq
        · exact hmem
      exact ih ⟨k, hr⟩
    | vStr s =>
      have hr : (k, JSValue.vNull) ∈ rest := by
        rcases List.mem_cons.mp hk with heq | hmem
        · cases heq
        · exact hmem
      simp [buildQueryPairs, isUndef, jsToString, ih ⟨k, hr⟩]
    | vNum n =>
      have hr : (k, JSValue.vNull) ∈ rest := by
        rcases List.mem_cons.mp hk with heq | hmem
        · cases heq
        · exact hmem
      simp [buildQueryPairs, isUndef, jsToString, ih ⟨k, hr⟩]
    | vBool b =>
      have hr : (k, JSValue.vNull) ∈ rest := by
        rcases List.mem_cons.mp hk with heq | hmem
        · cases heq
        · exact hmem
      simp [buildQueryPairs, isUndef, jsToString, ih ⟨k, hr⟩]
    | vObj f =>
      have hr : (k, JSValue.vNull) ∈ rest := by
        rcases List.mem_cons.mp hk with heq | hmem
        · cases heq
        · exact hmem
      simp [buildQueryPairs, isUndef, jsToString, ih ⟨k, hr⟩]
    | vArr e =>
      have hr : (k, JSValue.vNull) ∈ rest := by
        rcases List.mem_cons.mp hk with heq | hmem
        · cases heq
        · exact hmem
      simp [buildQueryPairs, isUndef, jsToString, ih ⟨k, hr⟩]

/-! ### Claim theorems -/

/-- C1: for every function passed to `handleEndpoint`, a normal result is
passed through unchanged, and a thrown error (or rejected promise) yields a
normal response envelope whose text is the thrown error's message; the
wrapper is a total function, so no exception propagates past it to the
protocol transport. -/
theorem handleEndpoint_no_throw_boundary (r : Except JsError Envelope) :
    (∀ v, r = .ok v → handleEndpoint r = v) ∧
    (∀ e, r = .error e →
      handleEndpoint r = formatResponse (.vStr e.message) ∧
      handleEndpoint r = ⟨[⟨"text", e.message⟩]⟩) := by
  constructor
  · rintro v rfl; rfl
  · rintro e rfl; exact ⟨rfl, rfl⟩

theorem handleEndpoint_no_throw_boundary_witness :
    handleEndpoint (.error ⟨"boom"⟩) = formatResponse (.vStr "boom") ∧
    handleEndpoint (.error ⟨"boom"⟩) = ⟨[⟨"text", "boom"⟩]⟩ :=
  (handleEndpoint_no_throw_boundary (.error ⟨"boom"⟩)).2 ⟨"boom"⟩ rfl

/-- C2: a non-2xx HTTP response makes `makeApiRequest` return (not throw)
the sentinel string naming the status, and the result is independent of the
response's error body (the body is never read or parsed). -/
theorem makeApiRequest_non2xx_sentinel (apiKey : Option String) (endpoint : String)
    (params : List (String × JSValue)) (method : String) (body : Option JSValue)
    (status : Nat) (b b' : JSValue) (pairs : List (String × String))
    (hTok : isFalsyStr apiKey = false)
    (hQ : buildQueryPairs params = .ok pairs)
    (hBad : respOk ⟨status, b⟩ = false) :
    (makeApiRequest apiKey endpoint params method body ⟨status, b⟩).1 =
      .ok (.vStr ("Error fetching data from HubSpot: Status " ++ toString status)) ∧
    makeApiRequest apiKey endpoint params method body ⟨status, b⟩ =
      makeApiRequest apiKey endpoint params method body ⟨status, b'⟩ := by
  have hBad' : respOk ⟨status, b'⟩ = false := hBad
  constructor
  · simp [makeApiRequest, hTok, hQ, hBad]
  · simp [makeApiRequest, hTok, hQ, hBad, hBad']

theorem makeApiRequest_non2xx_sentinel_witness :
    (makeApiRequest (some "tok") "/a" [] "GET" none ⟨403, .vNull⟩).1 =
      .ok (.vStr ("Error fetching data from HubSpot: Status " ++ toString 403)) ∧
    makeApiRequest (some "tok") "/a" [] "GET" none ⟨403, .vNull⟩ =
      makeApiRequest (some "tok") "/a" [] "GET" none ⟨403, .vStr "secret body"⟩ :=
  makeApiRequest_non2xx_sentinel (some "tok") "/a" [] "GET" none
    403 .vNull (.vStr "secret body") [] rfl rfl rfl

/-- C3: `formatResponse` is total (never throws) and always yields an
envelope with exactly one content item of type `"text"`; a string input is
used verbatim, null/undefined yield the `"No data returned"` sentinel, an
object or array yields its JSON serialization, and a number or boolean
yields its JavaScript string conversion. -/
theorem formatResponse_total (d : JSValue) :
    (formatResponse d).content.length = 1 ∧
    (∀ item ∈ (formatResponse d).content, item.type = "text") ∧
    (∀ s, d = .vStr s → formatResponse d = ⟨[⟨"text", s⟩]⟩) ∧
    formatResponse .vNull = ⟨[⟨"text", "No data returned"⟩]⟩ ∧
    formatResponse .vUndefined = ⟨[⟨"text", "No data returned"⟩]⟩ ∧
    (∀ f, d = .vObj f → formatResponse d = ⟨[⟨"text", stringify (.vObj f)⟩]⟩) ∧
    (∀ e, d = .vArr e → formatResponse d = ⟨[⟨"text", stringify (.vArr e)⟩]⟩) ∧
    (∀ n, d = .vNum n → formatResponse d = ⟨[⟨"text", jsStringConv (.vNum n)⟩]⟩) ∧
    (∀ b, d = .vBool b → formatResponse d = ⟨[⟨"text", jsStringConv (.vBool b)⟩]⟩) := by
  refine ⟨?_, ?_, ?_, rfl, rfl, ?_, ?_, ?_, ?_⟩
  · cases d <;> rfl
  · intro item h
    cases d <;> simp [formatResponse] at h <;> simp [h]
  · rintro s rfl; rfl
  · rintro f rfl; rfl
  · rintro e rfl; rfl
  · rintro n rfl; rfl
  · rintro b rfl; rfl

theorem formatResponse_total_witness :
    formatResponse (.vObj [("a", .vNum 1)]) =
      ⟨[⟨"text", stringify (.vObj [("a", .vNum 1)])⟩]⟩ :=
  (formatResponse_total (.vObj [("a", .vNum 1)])).2.2.2.2.2.1 [("a", .vNum 1)] rfl

/-- C4: with an empty or missing access token, `makeApiRequest` throws the
configuration error naming `HUBSPOT_ACCESS_TOKEN` before any request is
issued (empty trace), and a tool invoked through the wrappers returns an
envelope whose text states the token is not set, with no outbound fetch. -/
theorem makeApiRequest_missing_token (apiKey : Option String) (endpoint : String)
    (params : List (String × JSValue)) (method : String) (body : Option JSValue)
    (resp : HttpResponse) (inputs : List JSValue)
    (hTok : isFalsyStr apiKey = true) :
    makeApiRequest apiKey endpoint params method body resp = (.error ⟨tokenErrorMessage⟩, []) ∧
    makeApiRequestWithErrorHandling apiKey endpoint params method body resp =
      (⟨[⟨"text", "Error performing request: " ++ tokenErrorMessage⟩]⟩, []) ∧
    crm_batch_update_companies apiKey inputs resp =
      (⟨[⟨"text", "Error performing request: " ++ tokenErrorMessage⟩]⟩, []) := by
  refine ⟨?_, ?_, ?_⟩ <;>
    simp [crm_batch_update_companies, makeApiRequestWithErrorHandling, makeApiRequest,
      handleEndpoint, formatResponse, hTok]

theorem makeApiRequest_missing_token_witness :
    makeApiRequest none "/a" [] "GET" none ⟨200, .vNull⟩ = (.error ⟨tokenErrorMessage⟩, []) ∧
    makeApiRequestWithErrorHandling none "/a" [] "GET" none ⟨200, .vNull⟩ =
      (⟨[⟨"text", "Error performing request: " ++ tokenErrorMessage⟩]⟩, []) ∧
    crm_batch_update_companies none [] ⟨200, .vNull⟩ =
      (⟨[⟨"text", "Error performing request: " ++ tokenErrorMessage⟩]⟩, []) :=
  makeApiRequest_missing_token none "/a" [] "GET" none ⟨200, .vNull⟩ [] rfl

/-- C5: an HTTP 204 response makes `makeApiRequest` return the literal
sentinel `"No data returned: Status 204"`; the response body is never
parsed (the result is independent of it), and the envelope the caller
receives carries exactly that sentinel text. -/
theorem makeApiRequest_204_sentinel (apiKey : Option String) (endpoint : String)
    (params : List (String × JSValue)) (method : String) (body : Option JSValue)
    (b b' : JSValue) (pairs : List (String × String))
    (hTok : isFalsyStr apiKey = false)
    (hQ : buildQueryPairs params = .ok pairs) :
    (makeApiRequest apiKey endpoint params method body ⟨204, b⟩).1 =
      .ok (.vStr "No data returned: Status 204") ∧
    makeApiRequest apiKey endpoint params method body ⟨204, b⟩ =
      makeApiRequest apiKey endpoint params method body ⟨204, b'⟩ ∧
    (makeApiRequestWithErrorHandling apiKey endpoint params method body ⟨204, b⟩).1 =
      ⟨[⟨"text", "No data returned: Status 204"⟩]⟩ := by
  refine ⟨?_, ?_, ?_⟩ <;>
    · simp [makeApiRequest, makeApiRequestWithErrorHandling, formatResponse, hTok, hQ, respOk]
      try rfl

theorem makeApiRequest_204_sentinel_witness :
    (makeApiRequest (some "tok") "/a" [] "DELETE" none ⟨204, .vStr "ignored"⟩).1 =
      .ok (.vStr "No data returned: Status 204") ∧
    makeApiRequest (some "tok") "/a" [] "DELETE" none ⟨204, .vStr "ignored"⟩ =
      makeApiRequest (some "tok") "/a" [] "DELETE" none ⟨204, .vNull⟩ ∧
    (makeApiRequestWithErrorHandling (some "tok") "/a" [] "DELETE" none ⟨204, .vStr "ignored"⟩).1 =
      ⟨[⟨"text", "No data returned: Status 204"⟩]⟩ :=
  makeApiRequest_204_sentinel (some "tok") "/a" [] "DELETE" none
    (.vStr "ignored") .vNull [] rfl rfl

/-- C6: every issued request targets the fixed base origin plus the
endpoint path, with `?` and a query string appended exactly when some
parameter value is not `undefined`; the query pairs are exactly the
non-`undefined` entries coerced by `toString`; `Authorization: Bearer` and
`Accept` headers are always present, and `Content-Type` plus a
JSON-serialized body are present exactly when the body is non-null. -/
theorem makeApiRequest_url_headers_body (apiKey : Option String) (endpoint : String)
    (params : List (String × JSValue)) (method : String) (body : Option JSValue)
    (resp : HttpResponse) (pairs : List (String × String))
    (hTok : isFalsyStr apiKey = false)
    (hQ : buildQueryPairs params = .ok pairs) :
    ∃ req : HttpRequest,
      (makeApiRequest apiKey endpoint params method body resp).2 = [req] ∧
      req.url = hubspotBase ++ endpoint ++
        (if renderQuery pairs = "" then "" else "?" ++ renderQuery pairs) ∧
      (renderQuery pairs = "" ↔ List.filter (fun p => !isUndef p.2) params = []) ∧
      List.mapM' (fun p => Except.map (fun s => (p.1, s)) (jsToString p.2))
        (List.filter (fun p => !isUndef p.2) params) = .ok pairs ∧
      ("Accept", "application/json") ∈ req.headers ∧
      ("Authorization", "Bearer " ++ strOrUndefined apiKey) ∈ req.headers ∧
      (("Content-Type", "application/json") ∈ req.headers ↔ body.isSome) ∧
      req.method = method ∧
      req.body = body.map stringify := by
  have hmap : List.mapM' (fun p => Except.map (fun s => (p.1, s)) (jsToString p.2))
      (List.filter (fun p => !isUndef p.2) params) = .ok pairs := by
    rw [← buildQueryPairs_eq_mapM]; exact hQ
  have hq_iff : renderQuery pairs = "" ↔ List.filter (fun p => !isUndef p.2) params = [] :=
    (renderQuery_eq_empty_iff pairs).trans (mapM'_ok_nil_iff _ _ _ hmap)
  refine ⟨⟨hubspotBase ++ endpoint ++
      (if renderQuery pairs = "" then "" else "?" ++ renderQuery pairs), method,
      [("Accept", "application/json"),
       ("Authorization", "Bearer " ++ strOrUndefined apiKey)]
      ++ (if body.isSome then [("Content-Type", "application/json")] else []),
      body.map stringify⟩, ?_, rfl, hq_iff, hmap, ?_, ?_, ?_, rfl, rfl⟩
  · simp [makeApiRequest, hTok, hQ]
  · simp
  · simp
  · cases body <;> simp

theorem makeApiRequest_url_headers_body_witness :
    ∃ req : HttpRequest,
      (makeApiRequest (some "tok") "/crm/v3/properties/companies"
        [("archived", .vBool true), ("after", .vUndefined)] "GET"
        (some (.vObj [("a", .vStr "b")])) ⟨200, .vNull⟩).2 = [req] ∧
      req.url = hubspotBase ++ "/crm/v3/properties/companies" ++
        (if renderQuery [("archived", "true")] = "" then ""
         else "?" ++ renderQuery [("archived", "true")]) ∧
      (renderQuery [("archived", "true")] = "" ↔
        List.filter (fun p => !isUndef p.2)
          [("archived", JSValue.vBool true), ("after", JSValue.vUndefined)] = []) ∧
      List.mapM' (fun p => Except.map (fun s => (p.1, s)) (jsToString p.2))
        (List.filter (fun p => !isUndef p.2)
          [("archived", JSValue.vBool true), ("after", JSValue.vUndefined)]) =
        .ok [("archived", "true")] ∧
      ("Accept", "application/json") ∈ req.headers ∧
      ("Authorization", "Bearer " ++ strOrUndefined (some "tok")) ∈ req.headers ∧
      (("Content-Type", "application/json") ∈ req.headers ↔
        (some (JSValue.vObj [("a", .vStr "b")])).isSome) ∧
      req.method = "GET" ∧
      req.body = (some (JSValue.vObj [("a", .vStr "b")])).map stringify :=
  makeApiRequest_url_headers_body (some "tok") "/crm/v3/properties/companies"
    [("archived", .vBool true), ("after", .vUndefined)] "GET"
    (some (.vObj [("a", .vStr "b")])) ⟨200, .vNull⟩ [("archived", "true")] rfl rfl

/-- C7: each batch-create/update/archive handler issues exactly one
outbound HTTP POST whose body is the JSON serialization of
`\x7binputs: [the caller-supplied items]\x7d` (for archive, the ids wrapped
one-to-one as `\x7bid\x7d` objects); batching never fans out into one request
per item. -/
theorem batch_tools_single_wrapped_request (tok : Option String)
    (inputs pInputs : List JSValue) (productIds : List String) (resp : HttpResponse)
    (hTok : isFalsyStr tok = false) :
    (crm_batch_update_companies tok inputs resp).2 =
      [⟨hubspotBase ++ "/crm/v3/objects/companies/batch/update", "POST", postHeaders tok,
        some (stringify (.vObj [("inputs", .vArr inputs)]))⟩] ∧
    (products_batch_create tok pInputs resp).2 =
      [⟨hubspotBase ++ "/crm/v3/objects/products/batch/create", "POST", postHeaders tok,
        some (stringify (.vObj [("inputs", .vArr pInputs)]))⟩] ∧
    (products_batch_archive tok productIds resp).2 =
      [⟨hubspotBase ++ "/crm/v3/objects/products/batch/archive", "POST", postHeaders tok,
        some (stringify (.vObj [("inputs",
          .vArr (productIds.map fun id => .vObj [("id", .vStr id)]))]))⟩] ∧
    (productIds.map fun id => JSValue.vObj [("id", .vStr id)]).length = productIds.length := by
  refine ⟨?_, ?_, ?_, by simp⟩ <;>
    simp [crm_batch_update_companies, products_batch_create, products_batch_archive,
      makeApiRequestWithErrorHandling, makeApiRequest, postHeaders, hTok,
      buildQueryPairs, renderQuery, String.append_empty]

theorem batch_tools_single_wrapped_request_witness :
    (crm_batch_update_companies (some "t")
        [JSValue.vObj [("id", .vStr "1")], JSValue.vObj [("id", .vStr "2")]] ⟨200, .vNull⟩).2 =
      [⟨hubspotBase ++ "/crm/v3/objects/companies/batch/update", "POST", postHeaders (some "t"),
        some (stringify (.vObj [("inputs",
          .vArr [JSValue.vObj [("id", .vStr "1")], JSValue.vObj [("id", .vStr "2")]])]))⟩] ∧
    (products_batch_create (some "t") [JSValue.vObj [("properties", .vObj [])]] ⟨200, .vNull⟩).2 =
      [⟨hubspotBase ++ "/crm/v3/objects/products/batch/create", "POST", postHeaders (some "t"),
        some (stringify (.vObj [("inputs",
          .vArr [JSValue.vObj [("properties", .vObj [])]])]))⟩] ∧
    (products_batch_archive (some "t") ["7", "8", "9"] ⟨200, .vNull⟩).2 =
      [⟨hubspotBase ++ "/crm/v3/objects/products/batch/archive", "POST", postHeaders (some "t"),
        some (stringify (.vObj [("inputs",
          .vArr (["7", "8", "9"].map fun id => .vObj [("id", .vStr id)]))]))⟩] ∧
    (["7", "8", "9"].map fun id => JSValue.vObj [("id", .vStr id)]).length = ["7", "8", "9"].length :=
  batch_tools_single_wrapped_request (some "t")
    [JSValue.vObj [("id", .vStr "1")], JSValue.vObj [("id", .vStr "2")]]
    [JSValue.vObj [("properties", .vObj [])]] ["7", "8", "9"] ⟨200, .vNull⟩ rfl

/-- C9: a `null`-valued query parameter is not filtered like `undefined`
ones are — `null.toString()` throws while the query string is being built,
so `makeApiRequest` throws before any request is issued (empty trace) and
the wrapper surfaces the `TypeError`'s message in an error envelope. -/
theorem null_query_param_throws (tok : Option String) (endpoint : String)
    (params : List (String × JSValue)) (method : String) (body : Option JSValue)
    (resp : HttpResponse)
    (hTok : isFalsyStr tok = false)
    (hNull : ∃ k, (k, JSValue.vNull) ∈ params) :
    makeApiRequest tok endpoint params method body resp =
      (.error ⟨nullToStringMessage⟩, []) ∧
    makeApiRequestWithErrorHandling tok endpoint params method body resp =
      (⟨[⟨"text", "Error performing request: " ++ nullToStringMessage⟩]⟩, []) := by
  have hq := buildQueryPairs_of_mem_null params hNull
  constructor
  · simp [makeApiRequest, hTok, hq]
  · simp [makeApiRequestWithErrorHandling, makeApiRequest, formatResponse, hTok, hq]

theorem null_query_param_throws_witness :
    makeApiRequest (some "tok") "/a" [("limit", JSValue.vNull)] "GET" none ⟨200, .vNull⟩ =
      (.error ⟨nullToStringMessage⟩, []) ∧
    makeApiRequestWithErrorHandling (some "tok") "/a" [("limit", JSValue.vNull)]
        "GET" none ⟨200, .vNull⟩ =
      (⟨[⟨"text", "Error performing request: " ++ nullToStringMessage⟩]⟩, []) :=
  null_query_param_throws (some "tok") "/a" [("limit", JSValue.vNull)] "GET" none
    ⟨200, .vNull⟩ rfl ⟨"limit", List.Mem.head _⟩

/-- C10: `products_batch_read` ignores its validated `properties`,
`propertiesWithHistory` and `idProperty` arguments — two invocations that
agree on `productIds` behave identically, and the single outbound request
is a POST to the fixed batch/read path whose body is exactly
`\x7binputs: productIds.map(id => (\x7bid\x7d))\x7d`. -/
theorem products_batch_read_ignores_validated_filters
    (tok : Option String) (pwh1 pwh2 : List String) (idp1 idp2 : Option String)
    (props1 props2 : List String) (productIds : List String) (resp : HttpResponse)
    (hTok : isFalsyStr tok = false) :
    products_batch_read tok pwh1 idp1 productIds props1 resp =
      products_batch_read tok pwh2 idp2 productIds props2 resp ∧
    (products_batch_read tok pwh1 idp1 productIds props1 resp).2 =
      [⟨hubspotBase ++ "/crm/v3/objects/products/batch/read", "POST", postHeaders tok,
        some (stringify (.vObj [("inputs",
          .vArr (productIds.map fun id => .vObj [("id", .vStr id)]))]))⟩] := by
  refine ⟨rfl, ?_⟩
  simp [products_batch_read, makeApiRequestWithErrorHandling, makeApiRequest, postHeaders,
    hTok, buildQueryPairs, renderQuery, String.append_empty]

theorem products_batch_read_ignores_validated_filters_witness :
    products_batch_read (some "t") ["name"] (some "sku") ["1"] ["price"] ⟨200, .vNull⟩ =
      products_batch_read (some "t") [] none ["1"] [] ⟨200, .vNull⟩ ∧
    (products_batch_read (some "t") ["name"] (some "sku") ["1"] ["price"] ⟨200, .vNull⟩).2 =
      [⟨hubspotBase ++ "/crm/v3/objects/products/batch/read", "POST", postHeaders (some "t"),
        some (stringify (.vObj [("inputs",
          .vArr (["1"].map fun id => .vObj [("id", .vStr id)]))]))⟩] :=
  products_batch_read_ignores_validated_filters (some "t") ["name"] [] (some "sku") none
    ["price"] [] ["1"] ⟨200, .vNull⟩ rfl

/-- C8 counterexample: the claim says the config object takes precedence
whenever the setting is supplied there, but `getConfig` uses JavaScript
`||`: a supplied empty-string token is falsy, so the environment value is
taken instead of the supplied one. -/
theorem getConfig_config_precedence_counterexample :
    getConfig (some ⟨some ""⟩) ⟨some "env-token"⟩ = some "env-token" ∧
    (some "env-token" : Option String) ≠ some "" := by
  refine ⟨rfl, by decide⟩

/-- C8 amended: the token is resolved once per registry construction — tool
calls never consult the environment as it stands at call time — and a
truthy (non-empty) config value takes precedence over the environment,
while a falsy (absent or empty) config value falls back to it. -/
theorem getConfig_once_and_truthy_precedence (config : Option ConfigObj) (env : Env) :
    (∀ s, config.bind (·.HUBSPOT_ACCESS_TOKEN) = some s → s ≠ "" →
      getConfig config env = some s) ∧
    (isFalsyStr (config.bind (·.HUBSPOT_ACCESS_TOKEN)) = true →
      getConfig config env = env.HUBSPOT_ACCESS_TOKEN) ∧
    (createServer config env).hubspotAccessToken = getConfig config env ∧
    (∀ envNow1 envNow2 inputs resp,
      registryBatchUpdateCompanies (createServer config env) envNow1 inputs resp =
      registryBatchUpdateCompanies (createServer config env) envNow2 inputs resp) := by
  refine ⟨?_, ?_, rfl, fun _ _ _ _ => rfl⟩
  · intro s hs hne
    simp [getConfig, jsOr, hs, isFalsyStr, hne]
  · intro h
    simp [getConfig, jsOr, h]

theorem getConfig_once_and_truthy_precedence_witness :
    getConfig (some ⟨some "cfg-token"⟩) ⟨some "env-token"⟩ = some "cfg-token" :=
  (getConfig_once_and_truthy_precedence (some ⟨some "cfg-token"⟩) ⟨some "env-token"⟩).1
    "cfg-token" rfl (by decide)

end HubspotMcp

